import Mathlib

/-!
Verification of the HydroDynamics communicating-vessels simulation
(src/HydroDynamics/main.cpp).

The simulation state consists of two containers (`big` and `small`) and a
scalar `externalPressure`.  The single physics step is the C++ function
`update` (main.cpp lines 230-280); the initial state is built by `setup`
(lines 74-92) and the key callback (lines 326-347) adjusts
`externalPressure`.  C++ `float` arithmetic is modelled as exact rational
arithmetic over `ℚ`.
-/

namespace HydroDynamics

/-- Model of `glm::vec2`: a 2-component vector, over `ℚ`. -/
structure Vec2 where
  x : ℚ
  y : ℚ
deriving DecidableEq, Repr

/-- The `container` struct of main.cpp (lines 62-72): one side of the
apparatus, with its fluid-column height, cross-sectional width, the four
corner points of the rendered quad, and the derived pressure. -/
structure Container where
  height : ℚ
  width : ℚ
  bottomLeft : Vec2
  bottomRight : Vec2
  topLeft : Vec2
  topRight : Vec2
  pressure : ℚ
deriving DecidableEq, Repr

/-- The full mutable simulation state: the globals `big`, `small`
(main.cpp line 72) and `externalPressure` (line 59). -/
structure HydroState where
  big : Container
  small : Container
  externalPressure : ℚ
deriving DecidableEq, Repr

/-- The fluid density constant: `#define density 1.0f` (main.cpp line 56). -/
def density : ℚ := 1

/-- The gravity constant: `#define gravity 9.8f` (main.cpp line 57), as the
exact rational 9.8. -/
def gravity : ℚ := 49/5

/-- The `setup` function of main.cpp (lines 74-92): initial heights 0.5,
widths 0.5 and 0.25, the quad corner coordinates, and the initial
pressures `height * density * gravity`; `externalPressure` starts at 0
(line 59). -/
def setup : HydroState :=
  { big :=
      { height := 1/2
        width := 1/2
        bottomLeft := ⟨-3/4, -1/2⟩
        bottomRight := ⟨-1/4, -1/2⟩
        topLeft := ⟨-3/4, 0⟩
        topRight := ⟨-1/4, 0⟩
        pressure := 1/2 * density * gravity }
    small :=
      { height := 1/2
        width := 1/4
        bottomLeft := ⟨1/2, -1/2⟩
        bottomRight := ⟨3/4, -1/2⟩
        topLeft := ⟨1/2, 0⟩
        topRight := ⟨3/4, 0⟩
        pressure := 1/2 * density * gravity }
    externalPressure := 0 }

/-- The `update` function of main.cpp (lines 230-280), one physics tick:

* recompute both pressure fields from the heights (lines 236-237);
* `LeftPressure = big.pressure + externalPressure`,
  `rightPressure = small.pressure` (lines 240-241);
* early return when already balanced (lines 244-247);
* `h = LeftPressure / (gravity * density)` (line 250),
  `change = (small.height - h) / 2` (lines 253-259);
* non-negativity guard aborting the tick (lines 262-265);
* apply the change: `big.height += change; h += change`, set the four
  top-edge y-coordinates, and re-derive `small.height` from geometry
  (lines 268-279).

Note that the two early returns happen after the pressure fields have
already been overwritten by the recomputed values. -/
def update (s : HydroState) : HydroState :=
  let bigA : Container := { s.big with pressure := s.big.height * gravity * density }
  let smallA : Container := { s.small with pressure := s.small.height * gravity * density }
  let LeftPressure : ℚ := bigA.pressure + s.externalPressure
  let rightPressure : ℚ := smallA.pressure
  if LeftPressure = rightPressure then
    { s with big := bigA, small := smallA }
  else
    let h : ℚ := LeftPressure / (gravity * density)
    let change : ℚ := (smallA.height - h) / 2
    if bigA.height + change < 0 ∨ h + change < 0 then
      { s with big := bigA, small := smallA }
    else
      let bigB : Container := { bigA with height := bigA.height + change }
      let h2 : ℚ := h + change
      let smallB : Container :=
        { smallA with
          topLeft := { smallA.topLeft with y := h2 - 1/2 }
          topRight := { smallA.topRight with y := h2 - 1/2 } }
      let bigC : Container :=
        { bigB with
          topLeft := { bigB.topLeft with y := bigB.height - 1/2 }
          topRight := { bigB.topRight with y := bigB.height - 1/2 } }
      let smallC : Container := { smallB with height := smallB.topLeft.y - smallB.bottomLeft.y }
      { s with big := bigC, small := smallC }

/-- The `applyPressureDelta` operation: `externalPressure += delta`.
This is the effect of the key callback (main.cpp lines 329-332) with
`delta = ±0.1`, stated for an arbitrary delta. -/
def applyPressureDelta (s : HydroState) (delta : ℚ) : HydroState :=
  { s with externalPressure := s.externalPressure + delta }

/-- GLFW library constant `GLFW_KEY_SPACE` (value 32). -/
def GLFW_KEY_SPACE : ℤ := 32

/-- GLFW library constant `GLFW_KEY_LEFT_SHIFT` (value 340). -/
def GLFW_KEY_LEFT_SHIFT : ℤ := 340

/-- GLFW library constant `GLFW_RELEASE` (value 0). -/
def GLFW_RELEASE : ℤ := 0

/-- GLFW library constant `GLFW_PRESS` (value 1). -/
def GLFW_PRESS : ℤ := 1

/-- GLFW library constant `GLFW_REPEAT` (value 2). -/
def GLFW_REPEAT : ℤ := 2

/-- The `key_callback` function of main.cpp (lines 326-347), restricted to
its effect on `externalPressure`: Space on press or repeat adds 0.1,
Left Shift on press or repeat subtracts 0.1. -/
def key_callback (key action : ℤ) (externalPressure : ℚ) : ℚ :=
  let e1 : ℚ :=
    if key = GLFW_KEY_SPACE ∧ (action = GLFW_PRESS ∨ action = GLFW_REPEAT) then
      externalPressure + 1/10
    else externalPressure
  if key = GLFW_KEY_LEFT_SHIFT ∧ (action = GLFW_PRESS ∨ action = GLFW_REPEAT) then
    e1 - 1/10
  else e1

/-- The local `LeftPressure` of `update`, recomputed from the current
heights (main.cpp lines 236 and 240): `big.height * gravity * density +
externalPressure`. -/
def leftPressure (s : HydroState) : ℚ :=
  s.big.height * gravity * density + s.externalPressure

/-- The local `rightPressure` of `update`, recomputed from the current
heights (main.cpp lines 237 and 241): `small.height * gravity * density`. -/
def rightPressure (s : HydroState) : ℚ :=
  s.small.height * gravity * density

/-- The local `h` of `update` (main.cpp line 250): the right-side height
that would balance `LeftPressure`. -/
def tickH (s : HydroState) : ℚ :=
  leftPressure s / (gravity * density)

/-- The local `change` of `update` (main.cpp lines 253-259):
`(small.height - h) / 2`. -/
def tickChange (s : HydroState) : ℚ :=
  (s.small.height - tickH s) / 2

/-- Absolute difference of the two recomputed hydrostatic pressures
`big.height * gravity * density` and `small.height * gravity * density`
(main.cpp lines 236-237). -/
def pressureDiff (s : HydroState) : ℚ :=
  |s.big.height * gravity * density - s.small.height * gravity * density|

/-- States reachable from the initial `setup` state by any sequence of
`applyPressureDelta` and `update` (tick) calls. -/
inductive Reachable : HydroState → Prop
  | init : Reachable setup
  | press {s : HydroState} (delta : ℚ) : Reachable s → Reachable (applyPressureDelta s delta)
  | tick {s : HydroState} : Reachable s → Reachable (update s)

/-- Overwriting both widths of a state: the relational device for the
width-noninterference property. -/
def setWidths (s : HydroState) (bw sw : ℚ) : HydroState :=
  { s with
    big := { s.big with width := bw }
    small := { s.small with width := sw } }

/-! ### Branch lemmas for `update` -/

/-- The effect of main.cpp lines 236-237 alone: overwrite both pressure
fields with the values recomputed from the heights.  Both early returns of
`update` leave the state in this form. -/
def refreshPressures (s : HydroState) : HydroState :=
  { s with
    big := { s.big with pressure := s.big.height * gravity * density }
    small := { s.small with pressure := s.small.height * gravity * density } }

lemma leftPressure_refreshPressures (s : HydroState) :
    leftPressure (refreshPressures s) = leftPressure s := rfl

lemma rightPressure_refreshPressures (s : HydroState) :
    rightPressure (refreshPressures s) = rightPressure s := rfl

lemma tickH_refreshPressures (s : HydroState) :
    tickH (refreshPressures s) = tickH s := rfl

lemma tickChange_refreshPressures (s : HydroState) :
    tickChange (refreshPressures s) = tickChange s := rfl

lemma refreshPressures_refreshPressures (s : HydroState) :
    refreshPressures (refreshPressures s) = refreshPressures s := rfl

/-- When the recomputed pressures balance, `update` takes the early return
(main.cpp lines 244-247): the state is unchanged except that both pressure
fields now hold the recomputed values. -/
lemma update_of_balanced {s : HydroState} (h : leftPressure s = rightPressure s) :
    update s = refreshPressures s := by
  simp only [leftPressure, rightPressure] at h
  simp only [update, refreshPressures]
  rw [if_pos h]

/-- When the pressures differ and the non-negativity guard fires
(main.cpp lines 262-265), `update` aborts: the state is unchanged except
that both pressure fields now hold the recomputed values. -/
lemma update_of_guard {s : HydroState} (hne : leftPressure s ≠ rightPressure s)
    (hg : s.big.height + tickChange s < 0 ∨ tickH s + tickChange s < 0) :
    update s = refreshPressures s := by
  simp only [leftPressure, rightPressure] at hne
  simp only [tickH, tickChange, leftPressure] at hg
  simp only [update, refreshPressures]
  rw [if_neg hne, if_pos hg]

/-- When the pressures differ and the guard does not fire, `update` runs the
main branch (main.cpp lines 268-279). -/
lemma update_of_main {s : HydroState} (hne : leftPressure s ≠ rightPressure s)
    (hg : ¬(s.big.height + tickChange s < 0 ∨ tickH s + tickChange s < 0)) :
    update s =
      { s with
        big :=
          { s.big with
            height := s.big.height + tickChange s
            topLeft := { s.big.topLeft with y := (s.big.height + tickChange s) - 1/2 }
            topRight := { s.big.topRight with y := (s.big.height + tickChange s) - 1/2 }
            pressure := s.big.height * gravity * density }
        small :=
          { s.small with
            height := ((tickH s + tickChange s) - 1/2) - s.small.bottomLeft.y
            topLeft := { s.small.topLeft with y := (tickH s + tickChange s) - 1/2 }
            topRight := { s.small.topRight with y := (tickH s + tickChange s) - 1/2 }
            pressure := s.small.height * gravity * density } } := by
  simp only [leftPressure, rightPressure] at hne
  simp only [tickH, tickChange, leftPressure] at hg ⊢
  simp only [update]
  rw [if_neg hne, if_neg hg]

lemma gravity_density_ne : gravity * density ≠ 0 := by norm_num [gravity, density]

/-- Multiplying the target height `h` back by `gravity * density` recovers
`LeftPressure` (main.cpp line 250 read backwards). -/
lemma tickH_mul (s : HydroState) : tickH s * (gravity * density) = leftPressure s := by
  unfold tickH
  exact div_mul_cancel₀ _ gravity_density_ne

/-- Strengthened reachability invariant: both heights are non-negative and
the small container's bottom edge stays at y = -1/2 (where `setup` put it,
and `update` never writes bottom corners). -/
lemma reachable_inv {s : HydroState} (h : Reachable s) :
    0 ≤ s.big.height ∧ 0 ≤ s.small.height ∧ s.small.bottomLeft.y = -(1/2) := by
  induction h with
  | init => refine ⟨by norm_num [setup], by norm_num [setup], by norm_num [setup]⟩
  | press delta _ ih => simpa [applyPressureDelta] using ih
  | tick _ ih =>
    obtain ⟨hb, hs, hy⟩ := ih
    rename_i t _
    by_cases h1 : leftPressure t = rightPressure t
    · rw [update_of_balanced h1]
      exact ⟨hb, hs, hy⟩
    · by_cases h2 : t.big.height + tickChange t < 0 ∨ tickH t + tickChange t < 0
      · rw [update_of_guard h1 h2]
        exact ⟨hb, hs, hy⟩
      · rw [update_of_main h1 h2]
        push_neg at h2
        obtain ⟨hg1, hg2⟩ := h2
        refine ⟨by simpa using hg1, ?_, by simpa using hy⟩
        show 0 ≤ ((tickH t + tickChange t) - 1/2) - t.small.bottomLeft.y
        rw [hy]
        linarith

/-- The state one tick after raising the external pressure by 0.1 from the
initial state, in closed form.  Note the two pressure fields still hold the
values recomputed from the pre-tick heights (49/10), not from the new
heights. -/
lemma update_press_tick_eq :
    update (applyPressureDelta setup (1/10)) =
      { big :=
          { height := 97/196, width := 1/2,
            bottomLeft := ⟨-3/4, -1/2⟩, bottomRight := ⟨-1/4, -1/2⟩,
            topLeft := ⟨-3/4, -1/196⟩, topRight := ⟨-1/4, -1/196⟩,
            pressure := 49/10 }
        small :=
          { height := 99/196, width := 1/4,
            bottomLeft := ⟨1/2, -1/2⟩, bottomRight := ⟨3/4, -1/2⟩,
            topLeft := ⟨1/2, 1/196⟩, topRight := ⟨3/4, 1/196⟩,
            pressure := 49/10 }
        externalPressure := 1/10 } := by
  rw [update_of_main
    (by norm_num [leftPressure, rightPressure, applyPressureDelta, setup, gravity, density])
    (by norm_num [tickH, tickChange, leftPressure, applyPressureDelta, setup, gravity, density])]
  simp [applyPressureDelta, setup, tickH, tickChange, leftPressure, gravity, density]
  norm_num

/-- A single tick commutes with overwriting the two width fields: `update`
never reads either width. -/
lemma update_setWidths (s : HydroState) (a b : ℚ) :
    update (setWidths s a b) = setWidths (update s) a b := by
  simp only [update, setWidths]
  split_ifs <;> rfl

/-- With the external pressure at -100 from the initial state, the target
right-side height `h` is about -9.7, the guard fires (`h + change < 0`) and
the pressure fields are still fresh, so the tick is an exact fixed point. -/
lemma update_neg100_fixed :
    update (applyPressureDelta setup (-100)) = applyPressureDelta setup (-100) := by
  rw [update_of_guard
    (by norm_num [leftPressure, rightPressure, applyPressureDelta, setup, gravity, density])
    (by right
        norm_num [tickH, tickChange, leftPressure, applyPressureDelta, setup,
          gravity, density])]
  simp [refreshPressures, applyPressureDelta, setup, gravity, density]

/-! ### Claim theorems -/

/-- C1: Non-negativity invariant: every state reachable from the initial
state by any sequence of `applyPressureDelta` and `update` (tick) calls has
`big.height ≥ 0` and `small.height ≥ 0`; the guard in the tick refuses any
change that would make either side negative. -/
theorem reachable_heights_nonneg (s : HydroState) (h : Reachable s) :
    0 ≤ s.big.height ∧ 0 ≤ s.small.height :=
  ⟨(reachable_inv h).1, (reachable_inv h).2.1⟩

theorem reachable_heights_nonneg_witness :
    0 ≤ (update (applyPressureDelta setup (1/10))).big.height ∧
      0 ≤ (update (applyPressureDelta setup (1/10))).small.height :=
  reachable_heights_nonneg _ (Reachable.tick (Reachable.press (1/10) Reachable.init))

/-- C2: Tick algorithm correctness: when the recomputed pressures differ and
the guard does not trigger, the tick computes `h = LeftPressure / (gravity *
density)` and `change = (small.height - h) / 2`, adds `change` to
`big.height` and to `h`, sets both containers' top-edge y-coordinates from
their respective heights (small: `h - 0.5`; big: `big.height - 0.5`), and
finally re-derives `small.height` as `small.topLeft.y - small.bottomLeft.y`
(geometry updated first, height re-derived after). -/
theorem tick_main_branch (s : HydroState)
    (hne : leftPressure s ≠ rightPressure s)
    (hg : ¬(s.big.height + tickChange s < 0 ∨ tickH s + tickChange s < 0)) :
    update s =
      { s with
        big :=
          { s.big with
            height := s.big.height + tickChange s
            topLeft := { s.big.topLeft with y := (s.big.height + tickChange s) - 1/2 }
            topRight := { s.big.topRight with y := (s.big.height + tickChange s) - 1/2 }
            pressure := s.big.height * gravity * density }
        small :=
          { s.small with
            height := ((tickH s + tickChange s) - 1/2) - s.small.bottomLeft.y
            topLeft := { s.small.topLeft with y := (tickH s + tickChange s) - 1/2 }
            topRight := { s.small.topRight with y := (tickH s + tickChange s) - 1/2 }
            pressure := s.small.height * gravity * density } } :=
  update_of_main hne hg

theorem tick_main_branch_witness :
    update (applyPressureDelta setup (1/10)) =
      { big :=
          { height := 97/196, width := 1/2,
            bottomLeft := ⟨-3/4, -1/2⟩, bottomRight := ⟨-1/4, -1/2⟩,
            topLeft := ⟨-3/4, -1/196⟩, topRight := ⟨-1/4, -1/196⟩,
            pressure := 49/10 }
        small :=
          { height := 99/196, width := 1/4,
            bottomLeft := ⟨1/2, -1/2⟩, bottomRight := ⟨3/4, -1/2⟩,
            topLeft := ⟨1/2, 1/196⟩, topRight := ⟨3/4, 1/196⟩,
            pressure := 49/10 }
        externalPressure := 1/10 } := by
  rw [tick_main_branch _
    (by norm_num [leftPressure, rightPressure, applyPressureDelta, setup, gravity, density])
    (by norm_num [tickH, tickChange, leftPressure, applyPressureDelta, setup, gravity, density])]
  simp [applyPressureDelta, setup, tickH, tickChange, leftPressure, gravity, density]
  norm_num

/-- C4 counterexample: the state reached by one tick after raising the
external pressure by 0.1 has its recomputed pressures exactly balanced, yet
the next tick is not a no-op: it overwrites `small.pressure` (stale at
49/10, recomputed from the pre-tick height) with 99/20. -/
theorem balanced_tick_not_noop :
    leftPressure (update (applyPressureDelta setup (1/10))) =
      rightPressure (update (applyPressureDelta setup (1/10))) ∧
    update (update (applyPressureDelta setup (1/10))) ≠
      update (applyPressureDelta setup (1/10)) := by
  rw [update_press_tick_eq]
  constructor
  · norm_num [leftPressure, rightPressure, gravity, density]
  · intro hEq
    have h2 := congrArg (fun st => st.small.pressure) hEq
    rw [update_of_balanced (by norm_num [leftPressure, rightPressure, gravity, density])] at h2
    simp [refreshPressures, gravity, density] at h2
    norm_num at h2

/-- C4 (amended): when the recomputed pressures balance, the tick changes
nothing except overwriting the two pressure fields with the recomputed
values `height * gravity * density`; when the stored pressure fields already
hold those values (as in the initial configuration), the tick is an exact
no-op. -/
theorem tick_balanced_noop (s : HydroState)
    (hbal : leftPressure s = rightPressure s)
    (hbp : s.big.pressure = s.big.height * gravity * density)
    (hsp : s.small.pressure = s.small.height * gravity * density) :
    update s = s := by
  rw [update_of_balanced hbal]
  unfold refreshPressures
  rw [← hbp, ← hsp]

theorem tick_balanced_noop_witness : update setup = setup :=
  tick_balanced_noop setup
    (by norm_num [leftPressure, rightPressure, setup, gravity, density])
    (by norm_num [setup, gravity, density])
    (by norm_num [setup, gravity, density])

/-- C5 counterexample: a reachable state in which the non-negativity guard
triggers but the tick is not a no-op: starting one tick after a +0.1
pressure press, drop the external pressure by 200.  The guard fires, yet the
tick overwrites the stale `small.pressure` field (49/10) with the recomputed
99/20. -/
theorem guard_tick_not_noop :
    (leftPressure (applyPressureDelta (update (applyPressureDelta setup (1/10))) (-200)) ≠
        rightPressure (applyPressureDelta (update (applyPressureDelta setup (1/10))) (-200)) ∧
      ((applyPressureDelta (update (applyPressureDelta setup (1/10))) (-200)).big.height +
            tickChange (applyPressureDelta (update (applyPressureDelta setup (1/10))) (-200)) < 0 ∨
        tickH (applyPressureDelta (update (applyPressureDelta setup (1/10))) (-200)) +
            tickChange (applyPressureDelta (update (applyPressureDelta setup (1/10))) (-200)) < 0)) ∧
    update (applyPressureDelta (update (applyPressureDelta setup (1/10))) (-200)) ≠
      applyPressureDelta (update (applyPressureDelta setup (1/10))) (-200) := by
  rw [update_press_tick_eq]
  refine ⟨⟨?_, ?_⟩, ?_⟩
  · norm_num [leftPressure, rightPressure, applyPressureDelta, gravity, density]
  · right
    norm_num [tickH, tickChange, leftPressure, applyPressureDelta, gravity, density]
  · intro hEq
    have h2 := congrArg (fun st => st.small.pressure) hEq
    rw [update_of_guard
      (by norm_num [leftPressure, rightPressure, applyPressureDelta, gravity, density])
      (by right
          norm_num [tickH, tickChange, leftPressure, applyPressureDelta, gravity, density])] at h2
    simp [refreshPressures, applyPressureDelta, gravity, density] at h2
    norm_num at h2

/-- C5 (amended): when the pressures differ and the non-negativity guard
triggers, the tick aborts changing nothing except overwriting the two
pressure fields with the recomputed values; a second tick on the result is
then an exact no-op (the guard triggers again and the pressure fields are
already fresh), so the system does not oscillate out of the guarded
branch. -/
theorem tick_guard_abort (s : HydroState)
    (hne : leftPressure s ≠ rightPressure s)
    (hg : s.big.height + tickChange s < 0 ∨ tickH s + tickChange s < 0) :
    update s =
      { s with
        big := { s.big with pressure := s.big.height * gravity * density }
        small := { s.small with pressure := s.small.height * gravity * density } } ∧
    update (update s) = update s := by
  have e1 : update s = refreshPressures s := update_of_guard hne hg
  refine ⟨e1, ?_⟩
  have hne' : leftPressure (refreshPressures s) ≠ rightPressure (refreshPressures s) := by
    rw [leftPressure_refreshPressures, rightPressure_refreshPressures]
    exact hne
  have hg' : (refreshPressures s).big.height + tickChange (refreshPressures s) < 0 ∨
      tickH (refreshPressures s) + tickChange (refreshPressures s) < 0 := by
    rw [tickH_refreshPressures, tickChange_refreshPressures]
    exact hg
  rw [e1, update_of_guard hne' hg', refreshPressures_refreshPressures]

theorem tick_guard_abort_witness :
    update (update (applyPressureDelta setup (-100))) =
      update (applyPressureDelta setup (-100)) :=
  (tick_guard_abort (applyPressureDelta setup (-100))
    (by norm_num [leftPressure, rightPressure, applyPressureDelta, setup, gravity, density])
    (by right
        norm_num [tickH, tickChange, leftPressure, applyPressureDelta, setup,
          gravity, density])).2

/-- C6 counterexample: driving the external pressure to -100 from the
initial state makes the very first tick (and hence every later tick) a
no-op: `big.height` stays at 1/2 forever and never approaches 0, contrary
to the claimed convergence of `big.height` to 0. -/
theorem very_negative_pressure_no_convergence :
    update (applyPressureDelta setup (-100)) = applyPressureDelta setup (-100) ∧
    (applyPressureDelta setup (-100)).big.height = 1/2 :=
  ⟨update_neg100_fixed, by norm_num [applyPressureDelta, setup]⟩

/-- C6 (amended): after setting the external pressure to -100 from the
initial state the guard triggers on every tick, the state is a fixed point
of the tick, and `big.height` remains at 1/2 (in particular it never
becomes negative) for every number of ticks — it does not converge to 0. -/
theorem very_negative_pressure_frozen (n : ℕ) :
    update^[n] (applyPressureDelta setup (-100)) = applyPressureDelta setup (-100) ∧
    (update^[n] (applyPressureDelta setup (-100))).big.height = 1/2 ∧
    0 ≤ (update^[n] (applyPressureDelta setup (-100))).big.height := by
  have hfix := Function.iterate_fixed update_neg100_fixed n
  refine ⟨hfix, ?_, ?_⟩ <;> rw [hfix] <;> norm_num [applyPressureDelta, setup]

/-- C3: Monotone convergence at zero external pressure: from any valid
state (non-negative heights, small bottom edge at y = -1/2) with
`externalPressure = 0`, one tick drives the absolute difference of the two
recomputed hydrostatic pressures exactly to 0; in particular the tick never
increases that difference. -/
theorem tick_pressureDiff_monotone (s : HydroState)
    (he : s.externalPressure = 0)
    (hb : 0 ≤ s.big.height) (hs : 0 ≤ s.small.height)
    (hy : s.small.bottomLeft.y = -(1/2)) :
    pressureDiff (update s) = 0 ∧ pressureDiff (update s) ≤ pressureDiff s := by
  have key : pressureDiff (update s) = 0 := by
    by_cases h1 : leftPressure s = rightPressure s
    · have hbal : s.big.height * gravity * density = s.small.height * gravity * density := by
        have h2 := h1
        unfold leftPressure rightPressure at h2
        rw [he] at h2
        linarith
      rw [update_of_balanced h1]
      show |s.big.height * gravity * density - s.small.height * gravity * density| = 0
      rw [hbal, sub_self, abs_zero]
    · have hH : tickH s = s.big.height := by
        unfold tickH leftPressure
        rw [he, add_zero, mul_assoc]
        exact mul_div_cancel_right₀ _ gravity_density_ne
      have hchange : tickChange s = (s.small.height - s.big.height) / 2 := by
        rw [tickChange, hH]
      have hgf : ¬(s.big.height + tickChange s < 0 ∨ tickH s + tickChange s < 0) := by
        rw [hH, hchange]
        push_neg
        constructor <;> linarith
      rw [update_of_main h1 hgf]
      show |(s.big.height + tickChange s) * gravity * density -
        (((tickH s + tickChange s) - 1/2) - s.small.bottomLeft.y) * gravity * density| = 0
      rw [hy, hH, abs_eq_zero]
      ring
  refine ⟨key, ?_⟩
  rw [key]
  exact abs_nonneg _

theorem tick_pressureDiff_monotone_witness :
    pressureDiff (update { setup with big := { setup.big with height := 1 } }) = 0 ∧
    pressureDiff (update { setup with big := { setup.big with height := 1 } }) ≤
      pressureDiff { setup with big := { setup.big with height := 1 } } :=
  tick_pressureDiff_monotone { setup with big := { setup.big with height := 1 } }
    (by norm_num [setup]) (by norm_num [setup]) (by norm_num [setup]) (by norm_num [setup])

/-- C7: Width noninterference: for any state, rewriting the two widths and
then ticking any number of times gives exactly the width-rewritten result
of ticking the original state; in particular both runs agree on all
heights, pressures, and top-edge y-coordinates. -/
theorem width_noninterference (s : HydroState) (a b : ℚ) (n : ℕ) :
    update^[n] (setWidths s a b) = setWidths (update^[n] s) a b ∧
    (update^[n] (setWidths s a b)).big.height = (update^[n] s).big.height ∧
    (update^[n] (setWidths s a b)).small.height = (update^[n] s).small.height ∧
    (update^[n] (setWidths s a b)).big.pressure = (update^[n] s).big.pressure ∧
    (update^[n] (setWidths s a b)).small.pressure = (update^[n] s).small.pressure ∧
    (update^[n] (setWidths s a b)).big.topLeft.y = (update^[n] s).big.topLeft.y ∧
    (update^[n] (setWidths s a b)).big.topRight.y = (update^[n] s).big.topRight.y ∧
    (update^[n] (setWidths s a b)).small.topLeft.y = (update^[n] s).small.topLeft.y ∧
    (update^[n] (setWidths s a b)).small.topRight.y = (update^[n] s).small.topRight.y := by
  have key : update^[n] (setWidths s a b) = setWidths (update^[n] s) a b := by
    induction n with
    | zero => rfl
    | succ m ih =>
      rw [Function.iterate_succ_apply', Function.iterate_succ_apply', ih, update_setWidths]
  rw [key]
  exact ⟨rfl, rfl, rfl, rfl, rfl, rfl, rfl, rfl, rfl⟩

/-- C8: Pressure input accumulation: Space on press or key-repeat adds
exactly 0.1 to the external pressure and does nothing on release; Left
Shift on press or key-repeat subtracts exactly 0.1 and does nothing on
release; every key/action combination changes the external pressure by one
of 0, +0.1, -0.1; and the effect is translation-equivariant — no clamping
or bound on the accumulated value. -/
theorem key_callback_accumulates :
    (∀ e : ℚ, key_callback GLFW_KEY_SPACE GLFW_PRESS e = e + 1/10) ∧
    (∀ e : ℚ, key_callback GLFW_KEY_SPACE GLFW_REPEAT e = e + 1/10) ∧
    (∀ e : ℚ, key_callback GLFW_KEY_SPACE GLFW_RELEASE e = e) ∧
    (∀ e : ℚ, key_callback GLFW_KEY_LEFT_SHIFT GLFW_PRESS e = e - 1/10) ∧
    (∀ e : ℚ, key_callback GLFW_KEY_LEFT_SHIFT GLFW_REPEAT e = e - 1/10) ∧
    (∀ e : ℚ, key_callback GLFW_KEY_LEFT_SHIFT GLFW_RELEASE e = e) ∧
    (∀ (key action : ℤ) (e : ℚ), key_callback key action e = e ∨
      key_callback key action e = e + 1/10 ∨ key_callback key action e = e - 1/10) ∧
    (∀ (key action : ℤ) (e d : ℚ),
      key_callback key action (e + d) = key_callback key action e + d) := by
  refine ⟨?_, ?_, ?_, ?_, ?_, ?_, ?_, ?_⟩
  · intro e
    norm_num [key_callback, GLFW_KEY_SPACE, GLFW_KEY_LEFT_SHIFT, GLFW_PRESS, GLFW_REPEAT]
  · intro e
    norm_num [key_callback, GLFW_KEY_SPACE, GLFW_KEY_LEFT_SHIFT, GLFW_PRESS, GLFW_REPEAT]
  · intro e
    norm_num [key_callback, GLFW_KEY_SPACE, GLFW_KEY_LEFT_SHIFT, GLFW_PRESS, GLFW_REPEAT,
      GLFW_RELEASE]
  · intro e
    norm_num [key_callback, GLFW_KEY_SPACE, GLFW_KEY_LEFT_SHIFT, GLFW_PRESS, GLFW_REPEAT]
  · intro e
    norm_num [key_callback, GLFW_KEY_SPACE, GLFW_KEY_LEFT_SHIFT, GLFW_PRESS, GLFW_REPEAT]
  · intro e
    norm_num [key_callback, GLFW_KEY_SPACE, GLFW_KEY_LEFT_SHIFT, GLFW_PRESS, GLFW_REPEAT,
      GLFW_RELEASE]
  · intro key action e
    unfold key_callback
    split_ifs with h1 h2
    · exact absurd (h1.1 ▸ h2.1) (by norm_num [GLFW_KEY_SPACE, GLFW_KEY_LEFT_SHIFT])
    · right; left; rfl
    · right; right; rfl
    · left; rfl
  · intro key action e d
    unfold key_callback
    split_ifs <;> ring

/-- C9: One-tick exact equilibrium: from any state with the small bottom
edge at y = -1/2 where the pressures differ and the guard does not trigger,
a single tick produces a state whose recomputed left and right pressures
are exactly equal; a second tick therefore takes the already-balanced early
return, changing nothing but the two pressure fields. -/
theorem tick_exact_equilibrium (s : HydroState)
    (hy : s.small.bottomLeft.y = -(1/2))
    (hne : leftPressure s ≠ rightPressure s)
    (hg : ¬(s.big.height + tickChange s < 0 ∨ tickH s + tickChange s < 0)) :
    leftPressure (update s) = rightPressure (update s) ∧
    update (update s) =
      { update s with
        big := { (update s).big with
          pressure := (update s).big.height * gravity * density }
        small := { (update s).small with
          pressure := (update s).small.height * gravity * density } } := by
  have h1 : leftPressure (update s) = rightPressure (update s) := by
    rw [update_of_main hne hg]
    show (s.big.height + tickChange s) * gravity * density + s.externalPressure =
      (((tickH s + tickChange s) - 1/2) - s.small.bottomLeft.y) * gravity * density
    rw [hy]
    have h2 := tickH_mul s
    unfold leftPressure at h2
    ring_nf
    ring_nf at h2
    linarith
  exact ⟨h1, update_of_balanced h1⟩

theorem tick_exact_equilibrium_witness :
    leftPressure (update (applyPressureDelta setup (1/10))) =
      rightPressure (update (applyPressureDelta setup (1/10))) :=
  (tick_exact_equilibrium (applyPressureDelta setup (1/10))
    (by norm_num [applyPressureDelta, setup])
    (by norm_num [leftPressure, rightPressure, applyPressureDelta, setup, gravity, density])
    (by norm_num [tickH, tickChange, leftPressure, applyPressureDelta, setup,
      gravity, density])).1

/-- C10: Frame condition of the tick: `update` never modifies the external
pressure, either container's width, either bottom corner, or any corner's
x-coordinate; only the heights, the pressure fields and the four top-edge
y-coordinates may change. -/
theorem tick_frame (s : HydroState) :
    (update s).externalPressure = s.externalPressure ∧
    (update s).big.width = s.big.width ∧
    (update s).small.width = s.small.width ∧
    (update s).big.bottomLeft = s.big.bottomLeft ∧
    (update s).big.bottomRight = s.big.bottomRight ∧
    (update s).small.bottomLeft = s.small.bottomLeft ∧
    (update s).small.bottomRight = s.small.bottomRight ∧
    (update s).big.topLeft.x = s.big.topLeft.x ∧
    (update s).big.topRight.x = s.big.topRight.x ∧
    (update s).small.topLeft.x = s.small.topLeft.x ∧
    (update s).small.topRight.x = s.small.topRight.x := by
  by_cases h1 : leftPressure s = rightPressure s
  · rw [update_of_balanced h1]
    exact ⟨rfl, rfl, rfl, rfl, rfl, rfl, rfl, rfl, rfl, rfl, rfl⟩
  · by_cases h2 : s.big.height + tickChange s < 0 ∨ tickH s + tickChange s < 0
    · rw [update_of_guard h1 h2]
      exact ⟨rfl, rfl, rfl, rfl, rfl, rfl, rfl, rfl, rfl, rfl, rfl⟩
    · rw [update_of_main h1 h2]
      exact ⟨rfl, rfl, rfl, rfl, rfl, rfl, rfl, rfl, rfl, rfl, rfl⟩

end HydroDynamics
